import Mathlib

/-!
Verification development for the Pathfinder distributed-tracing demo
(`PathfinderApi` ASP.NET backend plus the `pathfinder-ui` Angular frontend).

The backend controllers (`ErrorSimulationController`, `HealthController`) and
the global exception middleware of `Program.cs` are embedded shallowly: each
request handler becomes a Lean function from the ambient tracing context (the
current `Activity`, modelled as `Option Nat` holding the numeric trace id) to
a pair of the list of side effects it performs (log lines, span operations,
outbound calls, delays) and its HTTP `Response` (status code plus a JSON body
modelled as an association list of fields, so that presence and absence of a
field are distinguishable).  The frontend pieces (`GlobalErrorHandler`,
`AppComponent`'s trigger layer) are embedded as explicit state passing.
-/

namespace Pathfinder

/-- A JSON value as it appears in the response bodies built by the
controllers: a string, a number, or null (C# `null` inside an anonymous
object serializes as a JSON null). -/
inductive Json where
  | str : String → Json
  | num : Int → Json
  | null : Json
  deriving DecidableEq, Repr

/-- A response body: the fields of the anonymous object a handler returns, in
source order.  An absent field is genuinely absent from the list, which is
what lets the model distinguish a missing `traceId` field from a null one. -/
abbrev Body := List (String × Json)

/-- An HTTP response as produced by a controller action or by the global
exception middleware: status code and JSON body. -/
structure Response where
  status : Nat
  body : Body
  deriving DecidableEq, Repr

/-- Field lookup in a response body, mirroring JSON object field access. -/
def getField (body : Body) (key : String) : Option Json :=
  (body.find? (fun p => p.1 = key)).map Prod.snd

/-- Does the body carry the field at all (present even if its value is null)? -/
def hasField (body : Body) (key : String) : Bool :=
  (getField body key).isSome

/-- Is the optional field a non-null JSON string? -/
def isStr : Option Json → Bool
  | some (Json.str _) => true
  | _ => false

/-- Hexadecimal digit characters, as `ActivityTraceId.ToString` renders them
(lower-case). -/
def hexChar (n : Nat) : Char :=
  if n < 10 then Char.ofNat (48 + n) else Char.ofNat (87 + n)

/-- The last `k` hex digits of `n`, most significant first.  With `k = 32`
this is the fixed-width rendering of a 128-bit trace id. -/
def hexDigitsAux : Nat → Nat → List Char
  | 0, _ => []
  | Nat.succ k, n => hexDigitsAux k (n / 16) ++ [hexChar (n % 16)]

/-- `ActivityTraceId.ToString()`: the 32-hex-character rendering of the trace
id.  Always exactly 32 characters, hence never empty. -/
def traceIdToString (n : Nat) : String :=
  String.mk (hexDigitsAux 32 n)

/-- `Activity.Current?.TraceId.ToString()` as a JSON value: the rendered id
when a tracing context is active, JSON null when `Activity.Current` is null. -/
def traceIdJson : Option Nat → Json
  | some t => Json.str (traceIdToString t)
  | none => Json.null

/-- A .NET exception as observed by the handlers and the middleware:
`GetType().Name`, `GetType().FullName`, `Message`, `StackTrace`. -/
structure Exn where
  typeName : String
  typeFullName : String
  message : String
  stackTrace : String
  deriving DecidableEq, Repr

/-- One side effect performed by a handler or by the middleware: a log line,
a span operation on the started activity, an outbound HTTP call, a
serialization attempt, or a delay. -/
inductive Effect where
  | logInformation (msg : String)
  | logWarning (msg : String)
  | logError (exMessage : String) (msg : String)
  | spanStart (name : String)
  | spanSetStatus (isError : Bool) (description : String)
  | spanSetTag (key : String) (value : String)
  | spanAddEvent (name : String) (tags : List (String × String))
  | jsonSerialize (rootName : String)
  | httpGet (url : String)
  | taskDelay (ms : Nat)
  deriving DecidableEq, Repr

/-- Span operations are performed through `activity?.`: they happen only when
an activity was started, which the model ties to an active tracing context. -/
def spanEffects (ctx : Option Nat) (effs : List Effect) : List Effect :=
  if ctx.isSome then effs else []

/-- The `exception` activity-event tags every catch block attaches
(`exception.type`, `exception.message`, `exception.stacktrace`). -/
def exceptionEventTags (ex : Exn) : List (String × String) :=
  [("exception.type", ex.typeFullName),
   ("exception.message", ex.message),
   ("exception.stacktrace", ex.stackTrace)]

/-- The `NullReferenceException` raised by `UnhandledException`'s
`value!.Length` dereference of a null string. -/
def nullReferenceExn : Exn :=
  { typeName := "NullReferenceException"
    typeFullName := "System.NullReferenceException"
    message := "Object reference not set to an instance of an object."
    stackTrace := "   at PathfinderApi.Controllers.ErrorSimulationController.UnhandledException()" }

/-- `GET api/errors/unhandled-exception`: starts a span, logs, then
dereferences null.  The handler has no catch block, so its result is the
escaping exception, never a response (`return Ok()` is unreachable). -/
def unhandledException (ctx : Option Nat) : List Effect × Except Exn Response :=
  (spanEffects ctx [Effect.spanStart "SimulateUnhandledException"] ++
     [Effect.logInformation "Triggering unhandled NullReferenceException"],
   Except.error nullReferenceExn)

/-- The `InvalidOperationException` thrown and immediately caught by
`HandledException`. -/
def handledExn : Exn :=
  { typeName := "InvalidOperationException"
    typeFullName := "System.InvalidOperationException"
    message := "Simulated handled exception"
    stackTrace := "   at PathfinderApi.Controllers.ErrorSimulationController.HandledException()" }

/-- `GET api/errors/handled-exception`: throws, catches locally, annotates the
span, logs, and returns 500 with the uniform envelope. -/
def handledException (ctx : Option Nat) : List Effect × Response :=
  (spanEffects ctx
      [Effect.spanStart "SimulateHandledException",
       Effect.spanSetStatus true handledExn.message,
       Effect.spanAddEvent "exception" (exceptionEventTags handledExn)] ++
     [Effect.logError handledExn.message "Handled exception occurred"],
   { status := 500
     body := [("error", Json.str "HandledException"),
              ("message", Json.str handledExn.message),
              ("traceId", traceIdJson ctx)] })

/-- The synthetic database exception thrown by `SqlError`; no database is
contacted, the `Exception` is constructed directly with a fixed message. -/
def sqlExn : Exn :=
  { typeName := "Exception"
    typeFullName := "System.Exception"
    message := "Database connection failed: Unable to connect to server 'db-server:5432'. Connection refused."
    stackTrace := "   at PathfinderApi.Controllers.ErrorSimulationController.SqlError()" }

/-- `GET api/errors/sql-error`: throws the synthetic connection failure,
catches locally, tags the span with `db.*` attributes, and returns 500. -/
def sqlError (ctx : Option Nat) : List Effect × Response :=
  (spanEffects ctx
      [Effect.spanStart "SimulateSqlError",
       Effect.spanSetStatus true sqlExn.message,
       Effect.spanAddEvent "exception" (exceptionEventTags sqlExn),
       Effect.spanSetTag "db.system" "postgresql",
       Effect.spanSetTag "db.statement" "SELECT * FROM users WHERE id = @id"] ++
     [Effect.logError sqlExn.message "Database error occurred"],
   { status := 500
     body := [("error", Json.str "DatabaseError"),
              ("message", Json.str sqlExn.message),
              ("traceId", traceIdJson ctx)] })

/-- `GET api/errors/timeout`: spans, logs, waits 30 seconds, then returns 200
with a body holding only `message` (note: no `traceId` field). -/
def timeout (ctx : Option Nat) : List Effect × Response :=
  (spanEffects ctx
      [Effect.spanStart "SimulateTimeout",
       Effect.spanSetTag "timeout.duration_ms" "30000"] ++
     [Effect.logWarning "Starting 30-second timeout simulation",
      Effect.taskDelay 30000],
   { status := 200
     body := [("message", Json.str "Completed after timeout delay")] })

/-- `GET api/errors/auth-failure`: always denies with 401 and the envelope. -/
def authFailure (ctx : Option Nat) : List Effect × Response :=
  (spanEffects ctx
      [Effect.spanStart "SimulateAuthFailure",
       Effect.spanSetTag "auth.type" "Bearer",
       Effect.spanSetStatus true "Unauthorized"] ++
     [Effect.logWarning "Simulating authentication failure (401)"],
   { status := 401
     body := [("error", Json.str "Unauthorized"),
              ("message", Json.str "Invalid or missing authentication token"),
              ("traceId", traceIdJson ctx)] })

/-- `GET api/errors/forbidden`: always denies with 403, naming the required
role in the message. -/
def forbidden (ctx : Option Nat) : List Effect × Response :=
  (spanEffects ctx
      [Effect.spanStart "SimulateForbidden",
       Effect.spanSetTag "auth.type" "Bearer",
       Effect.spanSetTag "auth.required_role" "Admin",
       Effect.spanSetStatus true "Forbidden"] ++
     [Effect.logWarning "Simulating authorization failure (403)"],
   { status := 403
     body := [("error", Json.str "Forbidden"),
              ("message", Json.str "You do not have permission to access this resource. Required role: Admin"),
              ("traceId", traceIdJson ctx)] })

/-- `GET api/errors/slow-response`: spans, logs, waits 5 seconds, returns 200
with `message`, `delayMs` and `traceId`. -/
def slowResponse (ctx : Option Nat) : List Effect × Response :=
  (spanEffects ctx
      [Effect.spanStart "SimulateSlowResponse",
       Effect.spanSetTag "delay.duration_ms" "5000"] ++
     [Effect.logInformation "Starting slow response (5-second delay)",
      Effect.taskDelay 5000,
      Effect.logInformation "Slow response completed"],
   { status := 200
     body := [("message", Json.str "Slow response completed after 5 seconds"),
              ("delayMs", Json.num 5000),
              ("traceId", traceIdJson ctx)] })

/-- `GET api/health` (`HealthController.Get`): 200 with `status`,
`timestamp` (the current UTC time, passed in as `now`) and `traceId`. -/
def healthGet (ctx : Option Nat) (now : String) : List Effect × Response :=
  (spanEffects ctx
      [Effect.spanStart "HealthCheck",
       Effect.spanSetTag "health.status" "ok"],
   { status := 200
     body := [("status", Json.str "healthy"),
              ("timestamp", Json.str now),
              ("traceId", traceIdJson ctx)] })

/-- `GET api/errors/dependency-failure`: spans and tags, then performs the
outbound call to the intentionally unreachable address with a 5-second client
timeout.  The call's result is a parameter (`downstream`): when it throws —
which the unreachable address guarantees in practice — the handler catches,
annotates the span, logs and returns 502; a (never observed) success would
return the bare `Ok()`. -/
def dependencyFailure (ctx : Option Nat) (downstream : Except Exn Unit) :
    List Effect × Response :=
  let pre := spanEffects ctx
      [Effect.spanStart "SimulateDependencyFailure",
       Effect.spanSetTag "dependency.url" "http://unreachable-service.local:9999/api/data"] ++
    [Effect.logWarning "Calling unreachable dependency",
     Effect.httpGet "http://unreachable-service.local:9999/api/data"]
  match downstream with
  | Except.ok _ => (pre, { status := 200, body := [] })
  | Except.error ex =>
    (pre ++ spanEffects ctx
        [Effect.spanSetStatus true ex.message,
         Effect.spanAddEvent "exception" (exceptionEventTags ex)] ++
       [Effect.logError ex.message "Dependency call failed"],
     { status := 502
       body := [("error", Json.str "DependencyFailure"),
                ("message", Json.str ex.message),
                ("traceId", traceIdJson ctx)] })

/-- The `CircularRef` helper class of the controller: a name and an optional
reference to another `CircularRef`.  Object identity is modelled by an index
into a heap (a list of nodes), which is how a cyclic object graph is
expressible over inductive data. -/
structure CircularRef where
  name : String
  ref : Option Nat
  deriving DecidableEq, Repr

/-- The object graph the `SerializationError` handler builds: `a` (index 0)
with `a.Ref = b`, and `b` (index 1) with `b.Ref = a` — a genuine cycle. -/
def serializationHeap : List CircularRef :=
  [{ name := "A", ref := some 1 }, { name := "B", ref := some 0 }]

/-- The message of the `System.Text.Json.JsonException` thrown when
serialization exceeds the maximum depth on a cyclic object graph. -/
def cycleMessage : String :=
  "A possible object cycle was detected. This can either be due to a cycle or if the object depth is larger than the maximum allowed depth of 64. Consider using ReferenceHandler.Preserve on JsonSerializerOptions to support cycles."

/-- `JsonSerializer.Serialize` on the `CircularRef` graph: writes the object
and recurses into `Ref`, with `System.Text.Json`'s default depth limit of 64;
running out of depth throws the cycle-detection exception. -/
def jsonSerializeRef (heap : List CircularRef) : Nat → Nat → Except String String
  | 0, _ => Except.error cycleMessage
  | Nat.succ fuel, i =>
    match heap.get? i with
    | none => Except.ok "null"
    | some c =>
      match c.ref with
      | none => Except.ok ("\x7b\"Name\":\"" ++ c.name ++ "\",\"Ref\":null\x7d")
      | some j =>
        match jsonSerializeRef heap fuel j with
        | Except.error e => Except.error e
        | Except.ok s =>
          Except.ok ("\x7b\"Name\":\"" ++ c.name ++ "\",\"Ref\":" ++ s ++ "\x7d")

/-- `GET api/errors/serialization-error`: builds the circular `a`/`b` pair and
really calls `JsonSerializer.Serialize(a)` (recorded as a `jsonSerialize`
effect); the serializer's failure is caught locally, the span annotated, and
500 returned with the serializer's own message.  Had serialization succeeded,
the handler would have returned the JSON with 200 (`return Ok(json)`). -/
def serializationError (ctx : Option Nat) : List Effect × Response :=
  let pre := spanEffects ctx [Effect.spanStart "SimulateSerializationError"] ++
    [Effect.logWarning "Triggering serialization error with circular reference",
     Effect.jsonSerialize "A"]
  match jsonSerializeRef serializationHeap 64 0 with
  | Except.ok json => (pre, { status := 200, body := [("json", Json.str json)] })
  | Except.error m =>
    (pre ++ spanEffects ctx
        [Effect.spanSetStatus true m,
         Effect.spanAddEvent "exception"
           [("exception.type", "System.Text.Json.JsonException"),
            ("exception.message", m),
            ("exception.stacktrace", "   at System.Text.Json.JsonSerializer.Serialize")]] ++
       [Effect.logError m "Serialization failed"],
     { status := 500
       body := [("error", Json.str "SerializationError"),
                ("message", Json.str m),
                ("traceId", traceIdJson ctx)] })

/-- The `while (sw.Elapsed.TotalSeconds < 3)` busy loop of `CpuSpike`,
driven by the successive stopwatch readings (in milliseconds) observed at
each loop-condition check: it returns the first reading at which the elapsed
time has reached 3 seconds, or `none` when the readings run out with the
loop still spinning. -/
def busyLoopExit : List Nat → Option Nat
  | [] => none
  | r :: rs => if r < 3000 then busyLoopExit rs else some r

/-- The 200 response `CpuSpike` builds after the loop, reporting
`sw.ElapsedMilliseconds` as measured after loop exit. -/
def cpuSpikeResponse (ctx : Option Nat) (durationMs : Nat) : Response :=
  { status := 200
    body := [("message", Json.str "CPU spike simulation completed"),
             ("durationMs", Json.num durationMs),
             ("traceId", traceIdJson ctx)] }

/-- `GET api/errors/cpu-spike`: spans, logs, busy-waits until the stopwatch
reads at least 3000 ms, then reports the (later, hence no smaller) final
stopwatch reading `finalMs`.  `none` models a loop that has not yet exited. -/
def cpuSpike (ctx : Option Nat) (clock : List Nat) (finalMs : Nat) :
    Option (List Effect × Response) :=
  match busyLoopExit clock with
  | none => none
  | some _ =>
    some (spanEffects ctx
        [Effect.spanStart "SimulateCpuSpike",
         Effect.spanSetTag "cpu.duration_seconds" "3"] ++
      [Effect.logWarning "Starting CPU spike simulation (3 seconds)"] ++
      spanEffects ctx [Effect.spanSetTag "cpu.actual_duration_ms" (toString finalMs)] ++
      [Effect.logInformation ("CPU spike completed after " ++ toString finalMs ++ "ms")],
      cpuSpikeResponse ctx finalMs)

/-- The allocation loop of `MemorySpike`: `for (int i = 0; i < 50; i++)
data.Add(new byte[10 * 1024 * 1024])`, with each block represented by its
size in bytes. -/
def allocLoop : Nat → List Nat → List Nat
  | 0, data => data
  | Nat.succ i, data => allocLoop i (data ++ [10 * 1024 * 1024])

/-- `data.Clear()` in the `finally` block: the list is emptied. -/
def clearList (_ : List Nat) : List Nat := []

/-- `GET api/errors/memory-spike`: allocates the 50 blocks, tags the span with
`data.Count * 10` MB, logs, clears the list in `finally`, and returns 200
with `allocatedMb = 500`. -/
def memorySpike (ctx : Option Nat) : List Effect × Response :=
  let data := allocLoop 50 []
  (spanEffects ctx [Effect.spanStart "SimulateMemorySpike"] ++
     [Effect.logWarning "Starting memory spike simulation"] ++
     spanEffects ctx [Effect.spanSetTag "memory.allocated_mb" (toString (data.length * 10))] ++
     [Effect.logInformation ("Allocated " ++ toString (data.length * 10) ++ "MB")],
   { status := 200
     body := [("message", Json.str "Memory spike simulation completed"),
              ("allocatedMb", Json.num 500),
              ("traceId", traceIdJson ctx)] })

/-- The `app.Use` global exception handler of `Program.cs`: runs the inner
handler; a normal response passes through untouched, while an escaping
exception is caught here — and only here — recorded on the current activity,
logged with the request path, and converted into the uniform 500 envelope
(`error` = the exception's type name, `message`, `traceId`). -/
def globalExceptionMiddleware (ctx : Option Nat) (path : String)
    (inner : List Effect × Except Exn Response) : List Effect × Response :=
  match inner.2 with
  | Except.ok r => (inner.1, r)
  | Except.error ex =>
    (inner.1 ++ spanEffects ctx
        [Effect.spanSetStatus true ex.message,
         Effect.spanAddEvent "exception" (exceptionEventTags ex)] ++
       [Effect.logError ex.message ("Unhandled exception on " ++ path)],
     { status := 500
       body := [("error", Json.str ex.typeName),
                ("message", Json.str ex.message),
                ("traceId", traceIdJson ctx)] })

/-- The window-level listener registrations of the frontend process: how many
`unhandledrejection` listeners and how many capture-phase `error` listeners
are currently attached.  A fresh browser process has none. -/
structure InterceptorState where
  rejectionListeners : Nat
  errorListeners : Nat
  deriving DecidableEq, Repr

/-- The `GlobalErrorHandler` constructor (`global-error-handler.ts`): it calls
`window.addEventListener('unhandledrejection', …)` and
`window.addEventListener('error', …, true)` unconditionally — there is no
guard checking whether the listeners are already attached. -/
def registerGlobalErrorHandler (st : InterceptorState) : InterceptorState :=
  { rejectionListeners := st.rejectionListeners + 1
    errorListeners := st.errorListeners + 1 }

/-- The interceptor state after the application's single dependency-injection
construction of `GlobalErrorHandler` in a fresh process. -/
def registeredOnce : InterceptorState :=
  registerGlobalErrorHandler { rejectionListeners := 0, errorListeners := 0 }

/-- The target of a window `error` event: the window itself (an uncaught
script exception) or a DOM element with its tag name and source URL (a
resource-load failure). -/
inductive TargetKind where
  | window
  | element (tagName : String) (src : String)
  deriving DecidableEq, Repr

/-- One frontend error occurrence delivered to the interceptor: an unhandled
promise rejection, a window `error` event with its target, or an exception
uncaught by component logic and routed to `ErrorHandler.handleError`. -/
inductive FrontEvent where
  | unhandledRejection (reasonMessage : String)
  | windowError (target : Option TargetKind)
  | uncaughtError (message : String)
  deriving DecidableEq, Repr

/-- The filter of the capture-phase `error` listener: `target && target !==
window && (tagName === 'IMG' || tagName === 'SCRIPT' || tagName ===
'LINK')`. -/
def isResourceTarget : Option TargetKind → Bool
  | some (TargetKind.element tag _) => tag = "IMG" || tag = "SCRIPT" || tag = "LINK"
  | some TargetKind.window => false
  | none => false

/-- How many error spans the interceptor produces when one event is delivered:
each attached rejection listener reports a rejection, each attached error
listener reports a qualifying resource failure (others it ignores), and
`handleError` — invoked exactly once per uncaught exception by the framework —
reports one span regardless of listener registrations. -/
def spansFor (st : InterceptorState) : FrontEvent → Nat
  | FrontEvent.unhandledRejection _ => st.rejectionListeners
  | FrontEvent.windowError target =>
    st.errorListeners * (if isResourceTarget target then 1 else 0)
  | FrontEvent.uncaughtError _ => 1

/-- The asynchronous follow-up an occurrence schedules: `handleError` rethrows
the error in a `setTimeout`, which surfaces on the event loop as a window
`error` event whose target is the window itself; the two listeners schedule
nothing. -/
def followups : FrontEvent → List FrontEvent
  | FrontEvent.uncaughtError _ => [FrontEvent.windowError (some TargetKind.window)]
  | _ => []

/-- Spans attributable to one occurrence: its direct handling plus the
handling of the follow-up events it schedules. -/
def spansForOccurrence (st : InterceptorState) (e : FrontEvent) : Nat :=
  spansFor st e + (followups e).foldr (fun f acc => spansFor st f + acc) 0

/-- Total spans produced by a burst of occurrences delivered in succession. -/
def totalSpans (st : InterceptorState) (evs : List FrontEvent) : Nat :=
  evs.foldr (fun e acc => spansForOccurrence st e + acc) 0

/-- An event counted by the spec as one error occurrence: a rejection, an
uncaught exception, or a window error that is a genuine resource-load
failure. -/
def isOccurrence : FrontEvent → Bool
  | FrontEvent.unhandledRejection _ => true
  | FrontEvent.uncaughtError _ => true
  | FrontEvent.windowError target => isResourceTarget target

/-- An action button's lifecycle status (`ActionButton.status` in
`app.component.ts`). -/
inductive BtnStatus where
  | idle
  | loading
  | success
  | error
  deriving DecidableEq, Repr

/-- One entry of the frontend action catalog (`ActionButton`): the mutable
`status` and `response` fields plus the static identification fields.  The
`icon` string and the `action` closure are presentational/behavioral and
carry no state. -/
structure ActionButton where
  id : String
  label : String
  description : String
  btnType : String
  status : BtnStatus
  response : Option String
  deriving DecidableEq, Repr

/-- The two catalogs held by `AppComponent`. -/
structure AppState where
  clientActions : List ActionButton
  serverActions : List ActionButton
  deriving DecidableEq, Repr

/-- Helper building a catalog entry in its startup state. -/
def mkButton (id label description btnType : String) : ActionButton :=
  { id := id, label := label, description := description, btnType := btnType
    status := BtnStatus.idle, response := none }

/-- The static client-side catalog of `app.component.ts`. -/
def initialClientActions : List ActionButton :=
  [mkButton "js-exception" "JS Exception" "TypeError: cannot read property of undefined" "client",
   mkButton "promise-rejection" "Promise Rejection" "Unhandled async rejection" "client",
   mkButton "network-failure" "Network Failure" "Connection to unreachable host" "client",
   mkButton "cors-failure" "CORS Failure" "Cross-origin request blocked" "client",
   mkButton "json-parse" "JSON Parse Error" "Invalid JSON string parsing" "client",
   mkButton "resource-load" "Resource Load Failure" "Image from unreachable server" "client"]

/-- The static server-side catalog of `app.component.ts`. -/
def initialServerActions : List ActionButton :=
  [mkButton "health" "Health Check" "Verify end-to-end trace (200 OK)" "server",
   mkButton "unhandled" "Unhandled Exception" "NullReferenceException (500)" "server",
   mkButton "handled" "Handled Exception" "InvalidOperationException (500)" "server",
   mkButton "sql" "Database Error" "Simulated SQL connection failure" "server",
   mkButton "timeout" "Timeout" "30-second delay (exceeds client timeout)" "server",
   mkButton "cpu" "CPU Spike" "3-second busy loop" "server",
   mkButton "memory" "Memory Spike" "Allocate 500MB temporarily" "server",
   mkButton "dependency" "Dependency Failure" "HTTP call to unreachable service" "server",
   mkButton "serialization" "Serialization Error" "Circular reference in JSON" "server",
   mkButton "auth" "Auth Failure (401)" "Missing/invalid token" "server",
   mkButton "forbidden" "Forbidden (403)" "Insufficient permissions" "server",
   mkButton "slow" "Slow Response" "5-second delay then 200 OK" "server"]

/-- The component state at startup. -/
def initialState : AppState :=
  { clientActions := initialClientActions, serverActions := initialServerActions }

/-- In-place mutation of the first catalog entry with the given id (the
effect of `btn.status = …; btn.response = …` on the button `find` returned);
entries with other ids are untouched. -/
def updateFirst (id : String) (st : BtnStatus) (resp : Option String) :
    List ActionButton → List ActionButton
  | [] => []
  | b :: bs =>
    if b.id = id then { b with status := st, response := resp } :: bs
    else b :: updateFirst id st resp bs

/-- `findButton` of `app.component.ts`: the first match in `clientActions`,
else the first match in `serverActions`. -/
def findButton (s : AppState) (id : String) : Option ActionButton :=
  match s.clientActions.find? (fun b => b.id = id) with
  | some b => some b
  | none => s.serverActions.find? (fun b => b.id = id)

/-- `setStatus` of `app.component.ts`: look the button up (client catalog
first) and, when found, overwrite its `status` and `response`; when no button
carries the id, do nothing.  (`cdr.detectChanges()` only forces a re-render
and moves no state.) -/
def setStatus (s : AppState) (id : String) (st : BtnStatus) (resp : Option String) :
    AppState :=
  if s.clientActions.any (fun b => b.id = id) then
    { s with clientActions := updateFirst id st resp s.clientActions }
  else if s.serverActions.any (fun b => b.id = id) then
    { s with serverActions := updateFirst id st resp s.serverActions }
  else s

/-- The synchronous outcome of a client-side simulation function passed to
`runClient`: it either returns normally or throws with a message. -/
inductive ClientFnResult where
  | normal
  | thrown (msg : String)
  deriving DecidableEq, Repr

/-- `runClient` of `app.component.ts`: set `loading`, run the simulation;
a normal return still sets `error` with the fixed "check Jaeger" summary
(the fault fires in the background), while a synchronous throw sets `error`
with the exception's message and rethrows it (the returned `Option String` is
the propagated exception) so the `GlobalErrorHandler` sees it. -/
def runClient (s : AppState) (id : String) (fn : ClientFnResult) :
    AppState × Option String :=
  let s1 := setStatus s id BtnStatus.loading none
  match fn with
  | ClientFnResult.normal =>
    (setStatus s1 id BtnStatus.error (some "Exception thrown (check Jaeger)"), none)
  | ClientFnResult.thrown m =>
    (setStatus s1 id BtnStatus.error (some m), some m)

/-- The error value `runHttp`'s subscriber receives: the parsed error body
(`err.error`, the backend envelope when one was returned) and the transport
message (`err.message`). -/
structure HttpErr where
  errorBody : Option Body
  message : Option String
  deriving DecidableEq, Repr

/-- The completion of the observable passed to `runHttp`. -/
inductive HttpOutcome where
  | next (res : Body)
  | fail (err : HttpErr)
  deriving DecidableEq, Repr

/-- A minimal JSON rendering for `JSON.stringify` of a response body. -/
def jsonToString : Json → String
  | Json.str s => "\"" ++ s ++ "\""
  | Json.num n => toString n
  | Json.null => "null"

/-- `JSON.stringify` over the modelled body. -/
def stringifyBody (b : Body) : String :=
  "\x7b" ++ String.intercalate ","
    (b.map (fun p => "\"" ++ p.1 ++ "\":" ++ jsonToString p.2)) ++ "\x7d"

/-- `res?.traceId || ''`: the traceId field of the body read as a string,
empty when the field is absent, null or empty. -/
def bodyTraceId (b : Body) : String :=
  match getField b "traceId" with
  | some (Json.str t) => t
  | _ => ""

/-- The success summary of `runHttp`: the trace id when the response carries
one, else the first 100 characters of the stringified body. -/
def summaryNext (res : Body) : String :=
  let t := bodyTraceId res
  if t = "" then (stringifyBody res).take 100 else "TraceId: " ++ t

/-- The error summary of `runHttp`: `err?.error?.message || err?.message ||
'Request failed'`, suffixed with the envelope's trace id when present. -/
def summaryFail (err : HttpErr) : String :=
  let msg :=
    match err.errorBody with
    | some body =>
      match getField body "message" with
      | some (Json.str m) =>
        if m = "" then (err.message.getD "Request failed") else m
      | _ => err.message.getD "Request failed"
    | none => err.message.getD "Request failed"
  let msg := if msg = "" then "Request failed" else msg
  let t := match err.errorBody with
    | some body => bodyTraceId body
    | none => ""
  if t = "" then msg else msg ++ " | TraceId: " ++ t

/-- `runHttp` of `app.component.ts`: set `loading`, subscribe, and on
completion set `success` or `error` with the corresponding summary. -/
def runHttp (s : AppState) (id : String) (outcome : HttpOutcome) : AppState :=
  let s1 := setStatus s id BtnStatus.loading none
  match outcome with
  | HttpOutcome.next res => setStatus s1 id BtnStatus.success (some (summaryNext res))
  | HttpOutcome.fail err => setStatus s1 id BtnStatus.error (some (summaryFail err))

/-- Positional frame comparison of a catalog before and after one invocation:
same length (nothing created or deleted), every entry keeps its identity and
static fields, and an entry whose id is not the invoked one is completely
unchanged. -/
def framePreserved (id : String) : List ActionButton → List ActionButton → Bool
  | [], [] => true
  | a :: as, b :: bs =>
    decide (b.id = a.id ∧ b.label = a.label ∧ b.description = a.description ∧
      b.btnType = a.btnType ∧ (a.id = id ∨ b = a)) && framePreserved id as bs
  | _, _ => false

/-- Effects that actually perform the simulated dangerous operation (an
outbound call, a real serialization attempt, a delay), as opposed to logging,
span annotation, and directly constructed ("fabricated") errors. -/
def isRealOperation : Effect → Bool
  | Effect.httpGet _ => true
  | Effect.jsonSerialize _ => true
  | Effect.taskDelay _ => true
  | _ => false

/-- Every fixed-width hex rendering has exactly the requested width. -/
theorem hexDigitsAux_length (k : Nat) : ∀ n : Nat, (hexDigitsAux k n).length = k := by
  induction k with
  | zero => intro n; rfl
  | succ k ih => intro n; simp [hexDigitsAux, ih]

/-- A rendered trace id is always 32 characters long. -/
theorem traceIdToString_length (n : Nat) : (traceIdToString n).length = 32 := by
  simp [traceIdToString, String.length, hexDigitsAux_length]

/-- A rendered trace id is never the empty string. -/
theorem traceIdToString_ne_empty (n : Nat) : traceIdToString n ≠ "" := by
  intro h
  have h32 := traceIdToString_length n
  rw [h] at h32
  exact absurd h32 (by decide)

/-- The busy loop of `CpuSpike` only exits at a stopwatch reading of at
least 3000 ms. -/
theorem busyLoopExit_ge (clock : List Nat) (e : Nat)
    (h : busyLoopExit clock = some e) : 3000 ≤ e := by
  induction clock with
  | nil => exact absurd h (by simp [busyLoopExit])
  | cons r rs ih =>
    by_cases hr : r < 3000
    · exact ih (by simpa [busyLoopExit, hr] using h)
    · have he : some r = some e := by simpa [busyLoopExit, hr] using h
      have : r = e := Option.some.inj he
      omega


/-- C1: each locally-handled server fault endpoint returns exactly its
documented status — handled-exception 500, sql-error 500, dependency-failure
502 (when the call to the unreachable dependency throws, as it is built to),
serialization-error 500, auth-failure 401, forbidden 403 — and a JSON
envelope whose `error` and `message` fields are non-null strings, whatever
the tracing context. -/
theorem localFaultEndpointsContract (ctx : Option Nat) (ex : Exn) :
    ((handledException ctx).2.status = 500 ∧
      isStr (getField (handledException ctx).2.body "error") = true ∧
      isStr (getField (handledException ctx).2.body "message") = true) ∧
    ((sqlError ctx).2.status = 500 ∧
      isStr (getField (sqlError ctx).2.body "error") = true ∧
      isStr (getField (sqlError ctx).2.body "message") = true) ∧
    ((dependencyFailure ctx (Except.error ex)).2.status = 502 ∧
      isStr (getField (dependencyFailure ctx (Except.error ex)).2.body "error") = true ∧
      isStr (getField (dependencyFailure ctx (Except.error ex)).2.body "message") = true) ∧
    ((serializationError ctx).2.status = 500 ∧
      isStr (getField (serializationError ctx).2.body "error") = true ∧
      isStr (getField (serializationError ctx).2.body "message") = true) ∧
    ((authFailure ctx).2.status = 401 ∧
      isStr (getField (authFailure ctx).2.body "error") = true ∧
      isStr (getField (authFailure ctx).2.body "message") = true) ∧
    ((forbidden ctx).2.status = 403 ∧
      isStr (getField (forbidden ctx).2.body "error") = true ∧
      isStr (getField (forbidden ctx).2.body "message") = true) :=
  ⟨⟨rfl, rfl, rfl⟩, ⟨rfl, rfl, rfl⟩, ⟨rfl, rfl, rfl⟩,
   ⟨rfl, rfl, rfl⟩, ⟨rfl, rfl, rfl⟩, ⟨rfl, rfl, rfl⟩⟩

/-- C8: the health endpoint always returns 200 with `status = "healthy"`, the
current UTC timestamp it read, and a `traceId` field; when a tracing context
is active the trace id is its 32-character rendering, which is non-empty. -/
theorem healthEndpointContract (ctx : Option Nat) (now : String) (t : Nat) :
    (healthGet ctx now).2.status = 200 ∧
    getField (healthGet ctx now).2.body "status" = some (Json.str "healthy") ∧
    getField (healthGet ctx now).2.body "timestamp" = some (Json.str now) ∧
    getField (healthGet (some t) now).2.body "traceId" =
      some (Json.str (traceIdToString t)) ∧
    traceIdToString t ≠ "" :=
  ⟨rfl, rfl, rfl, rfl, traceIdToString_ne_empty t⟩

/-- C2: the unhandled-exception endpoint's handler lets the
`NullReferenceException` escape (it catches nothing), and the round trip
through the top-level exception middleware still yields HTTP 500 with the
uniform envelope shape — exactly the keys `error`, `message`, `traceId`,
with `error` the exception's type name and `message` a non-null string.  The
middleware is the single catch point: the handler's own result is the raw
escaping exception, and the middleware's output is a plain response.  It logs
the original error (a `logError` carrying the exception's message is always
emitted), and with a tracing context active it records the error type,
message and stack trace on the span via the `exception` event and marks the
span status as error. -/
theorem unhandledExceptionRoundTrip (ctx : Option Nat) (path : String) (t : Nat) :
    (unhandledException ctx).2 = Except.error nullReferenceExn ∧
    (globalExceptionMiddleware ctx path (unhandledException ctx)).2.status = 500 ∧
    (globalExceptionMiddleware ctx path (unhandledException ctx)).2.body.map Prod.fst =
      ["error", "message", "traceId"] ∧
    getField (globalExceptionMiddleware ctx path (unhandledException ctx)).2.body "error" =
      some (Json.str "NullReferenceException") ∧
    isStr (getField (globalExceptionMiddleware ctx path (unhandledException ctx)).2.body
      "message") = true ∧
    hasField (globalExceptionMiddleware ctx path (unhandledException ctx)).2.body
      "traceId" = true ∧
    Effect.logError nullReferenceExn.message ("Unhandled exception on " ++ path) ∈
      (globalExceptionMiddleware ctx path (unhandledException ctx)).1 ∧
    Effect.spanSetStatus true nullReferenceExn.message ∈
      (globalExceptionMiddleware (some t) path (unhandledException (some t))).1 ∧
    Effect.spanAddEvent "exception" (exceptionEventTags nullReferenceExn) ∈
      (globalExceptionMiddleware (some t) path (unhandledException (some t))).1 := by
  refine ⟨rfl, rfl, rfl, rfl, rfl, rfl, ?_, ?_, ?_⟩ <;>
    simp [globalExceptionMiddleware, unhandledException, spanEffects]

/-- The serialization-error handler's effect trace always contains the real
`JsonSerializer.Serialize` call on the circular structure, whatever the
tracing context. -/
theorem mem_jsonSerialize_serializationError (ctx : Option Nat) :
    Effect.jsonSerialize "A" ∈ (serializationError ctx).1 := by
  have h : jsonSerializeRef serializationHeap 64 0 = Except.error cycleMessage := rfl
  cases ctx <;> simp [serializationError, spanEffects, h]

/-- C3 fails on the code: the serialization-error handler does attempt the
real serialization — it emits the `JsonSerializer.Serialize` call on the
circular `A`/`B` pair, the serializer genuinely detects the cycle, and the
envelope's message is the serializer's own cycle-detection message, not a
fabricated constant. -/
theorem serializationIsReallyAttempted :
    Effect.jsonSerialize "A" ∈ (serializationError none).1 ∧
    jsonSerializeRef serializationHeap 64 0 = Except.error cycleMessage ∧
    getField (serializationError none).2.body "message" =
      some (Json.str cycleMessage) := by
  exact ⟨mem_jsonSerialize_serializationError none, rfl, rfl⟩

/-- C3 amended: the sql-error handler fabricates its error directly — its
effect trace performs no real operation (no outbound call, no serialization
attempt) and its envelope message is the fixed synthetic connection-failure
string — whereas the serialization-error handler really builds the circular
structure and attempts `JsonSerializer.Serialize`; the serializer's failure
is caught locally and surfaced as the 500 envelope with the serializer's
message. -/
theorem sqlFabricatesSerializationAttempts (ctx : Option Nat) :
    ((sqlError ctx).1.all (fun e => !isRealOperation e) = true ∧
      getField (sqlError ctx).2.body "message" = some (Json.str sqlExn.message) ∧
      (sqlError ctx).2.status = 500) ∧
    (Effect.jsonSerialize "A" ∈ (serializationError ctx).1 ∧
      jsonSerializeRef serializationHeap 64 0 = Except.error cycleMessage ∧
      (serializationError ctx).2.status = 500 ∧
      getField (serializationError ctx).2.body "message" =
        some (Json.str cycleMessage) ∧
      getField (serializationError ctx).2.body "error" =
        some (Json.str "SerializationError")) := by
  cases ctx <;>
    exact ⟨⟨rfl, rfl, rfl⟩,
      ⟨mem_jsonSerialize_serializationError _, rfl, rfl, rfl, rfl⟩⟩

/-- C4 fails on the code: the `GlobalErrorHandler` constructor attaches its
two window listeners unconditionally, so running the initialization twice in
one process leaves two listeners of each kind attached, not one. -/
theorem doubleRegistrationNotGuarded :
    (registerGlobalErrorHandler (registerGlobalErrorHandler
        { rejectionListeners := 0, errorListeners := 0 })).rejectionListeners = 2 ∧
    (registerGlobalErrorHandler (registerGlobalErrorHandler
        { rejectionListeners := 0, errorListeners := 0 })).errorListeners = 2 ∧
    ¬ (registerGlobalErrorHandler (registerGlobalErrorHandler
        { rejectionListeners := 0, errorListeners := 0 })).rejectionListeners = 1 := by
  decide

/-- C4 amended: each construction of `GlobalErrorHandler` attaches exactly
one unhandled-rejection listener and one resource-error listener (there is no
guard), so the listeners are attached exactly once per process precisely
because the dependency-injection configuration constructs the handler once:
a single registration from the fresh state yields exactly one listener of
each kind. -/
theorem registrationAttachesOnePerConstruction (st : InterceptorState) :
    (registerGlobalErrorHandler st).rejectionListeners = st.rejectionListeners + 1 ∧
    (registerGlobalErrorHandler st).errorListeners = st.errorListeners + 1 ∧
    registeredOnce.rejectionListeners = 1 ∧
    registeredOnce.errorListeners = 1 :=
  ⟨rfl, rfl, rfl, rfl⟩

/-- C7 fails on the code: the timeout endpoint's success body is
`{ message = "Completed after timeout delay" }` and carries no `traceId`
field at all, although the endpoint is reachable and returns 200. -/
theorem timeoutBodyLacksTraceId :
    hasField (timeout none).2.body "traceId" = false ∧
    (timeout none).2.status = 200 ∧
    (timeout none).2.body.map Prod.fst = ["message"] := by
  decide

/-- C7 amended: every reachable backend response body except the timeout
endpoint's success body carries a `traceId` field whose value is exactly the
current tracing context's id — a JSON null when no context is active (the
response shape does not change), and the 32-hex rendering of the current
trace id when one is active — including every failure envelope. -/
theorem traceIdFieldOnAllBodies (ctx : Option Nat) (now path : String) (ex : Exn)
    (ms : Nat) :
    getField (healthGet ctx now).2.body "traceId" = some (traceIdJson ctx) ∧
    getField (handledException ctx).2.body "traceId" = some (traceIdJson ctx) ∧
    getField (sqlError ctx).2.body "traceId" = some (traceIdJson ctx) ∧
    getField (cpuSpikeResponse ctx ms).body "traceId" = some (traceIdJson ctx) ∧
    getField (memorySpike ctx).2.body "traceId" = some (traceIdJson ctx) ∧
    getField (dependencyFailure ctx (Except.error ex)).2.body "traceId" =
      some (traceIdJson ctx) ∧
    getField (serializationError ctx).2.body "traceId" = some (traceIdJson ctx) ∧
    getField (authFailure ctx).2.body "traceId" = some (traceIdJson ctx) ∧
    getField (forbidden ctx).2.body "traceId" = some (traceIdJson ctx) ∧
    getField (slowResponse ctx).2.body "traceId" = some (traceIdJson ctx) ∧
    getField (globalExceptionMiddleware ctx path (unhandledException ctx)).2.body
      "traceId" = some (traceIdJson ctx) ∧
    traceIdJson none = Json.null ∧
    (∀ t : Nat, traceIdJson (some t) = Json.str (traceIdToString t)) :=
  ⟨rfl, rfl, rfl, rfl, rfl, rfl, rfl, rfl, rfl, rfl, rfl, rfl, fun _ => rfl⟩

/-- With the listeners attached once, every qualifying occurrence is reported
in exactly one span, its scheduled follow-ups included. -/
theorem spansForOccurrence_eq_one (e : FrontEvent) (h : isOccurrence e = true) :
    spansForOccurrence registeredOnce e = 1 := by
  cases e with
  | unhandledRejection r => rfl
  | windowError target =>
    have ht : isResourceTarget target = true := h
    simp [spansForOccurrence, spansFor, followups, ht, registeredOnce,
      registerGlobalErrorHandler]
  | uncaughtError m => rfl

/-- C5: with the interceptor registered once, a burst of occurrences —
unhandled promise rejections, qualifying resource-load failures, uncaught
exceptions — in any order and any number produces exactly one reported span
per occurrence: the total span count equals the occurrence count, an
uncaught exception contributes exactly one span even counting its
asynchronous rethrow, that rethrow surfaces as a window error event targeted
at the window itself, and the resource listener produces zero spans for it. -/
theorem oneSpanPerOccurrence (evs : List FrontEvent) (m r : String)
    (h : evs.all isOccurrence = true) :
    totalSpans registeredOnce evs = evs.length ∧
    spansForOccurrence registeredOnce (FrontEvent.uncaughtError m) = 1 ∧
    followups (FrontEvent.uncaughtError m) =
      [FrontEvent.windowError (some TargetKind.window)] ∧
    spansFor registeredOnce (FrontEvent.windowError (some TargetKind.window)) = 0 ∧
    spansForOccurrence registeredOnce (FrontEvent.unhandledRejection r) = 1 := by
  refine ⟨?_, rfl, rfl, rfl, rfl⟩
  induction evs with
  | nil => rfl
  | cons e es ih =>
    rw [List.all_cons, Bool.and_eq_true] at h
    show spansForOccurrence registeredOnce e + totalSpans registeredOnce es =
      es.length + 1
    rw [spansForOccurrence_eq_one e h.1, ih h.2]
    omega

/-- Witness for C5 at a concrete burst: one rejection, one image-load
failure, one uncaught exception in rapid succession — three occurrences,
three spans. -/
theorem oneSpanPerOccurrence_witness :
    ([FrontEvent.unhandledRejection "Simulated unhandled promise rejection",
      FrontEvent.windowError (some (TargetKind.element "IMG"
        "http://localhost:9999/nonexistent-image.png")),
      FrontEvent.uncaughtError "boom"].all isOccurrence = true) ∧
    (totalSpans registeredOnce
        [FrontEvent.unhandledRejection "Simulated unhandled promise rejection",
         FrontEvent.windowError (some (TargetKind.element "IMG"
           "http://localhost:9999/nonexistent-image.png")),
         FrontEvent.uncaughtError "boom"] =
      [FrontEvent.unhandledRejection "Simulated unhandled promise rejection",
       FrontEvent.windowError (some (TargetKind.element "IMG"
         "http://localhost:9999/nonexistent-image.png")),
       FrontEvent.uncaughtError "boom"].length ∧
     spansForOccurrence registeredOnce (FrontEvent.uncaughtError "boom") = 1 ∧
     followups (FrontEvent.uncaughtError "boom") =
       [FrontEvent.windowError (some TargetKind.window)] ∧
     spansFor registeredOnce (FrontEvent.windowError (some TargetKind.window)) = 0 ∧
     spansForOccurrence registeredOnce
       (FrontEvent.unhandledRejection "Simulated unhandled promise rejection") = 1) :=
  ⟨by decide,
   oneSpanPerOccurrence
     [FrontEvent.unhandledRejection "Simulated unhandled promise rejection",
      FrontEvent.windowError (some (TargetKind.element "IMG"
        "http://localhost:9999/nonexistent-image.png")),
      FrontEvent.uncaughtError "boom"] "boom"
     "Simulated unhandled promise rejection" (by decide)⟩

/-- C6: the cpu-spike busy loop exits only at a stopwatch reading of at least
3 seconds, so whenever it exits the handler returns 200 with a `durationMs`
of at least 3000 (the final stopwatch reading, taken no earlier than the exit
reading); and the memory-spike handler allocates exactly 50 blocks of
10 MB each, clears them in its `finally`, and returns 200 with `allocatedMb`
exactly 500 (which is precisely `data.Count * 10`). -/
theorem cpuAndMemorySpikeContract (ctx : Option Nat) (clock : List Nat)
    (finalMs exitMs : Nat) (hexit : busyLoopExit clock = some exitMs)
    (hmono : exitMs ≤ finalMs) :
    (∃ effs, cpuSpike ctx clock finalMs = some (effs, cpuSpikeResponse ctx finalMs)) ∧
    (cpuSpikeResponse ctx finalMs).status = 200 ∧
    getField (cpuSpikeResponse ctx finalMs).body "durationMs" =
      some (Json.num finalMs) ∧
    3000 ≤ finalMs ∧
    (allocLoop 50 []).length = 50 ∧
    (∀ blk ∈ allocLoop 50 [], blk = 10 * 1024 * 1024) ∧
    clearList (allocLoop 50 []) = [] ∧
    (memorySpike ctx).2.status = 200 ∧
    getField (memorySpike ctx).2.body "allocatedMb" = some (Json.num 500) ∧
    (allocLoop 50 []).length * 10 = 500 := by
  refine ⟨⟨spanEffects ctx
      [Effect.spanStart "SimulateCpuSpike",
       Effect.spanSetTag "cpu.duration_seconds" "3"] ++
    [Effect.logWarning "Starting CPU spike simulation (3 seconds)"] ++
    spanEffects ctx [Effect.spanSetTag "cpu.actual_duration_ms" (toString finalMs)] ++
    [Effect.logInformation ("CPU spike completed after " ++ toString finalMs ++ "ms")],
      ?_⟩, rfl, rfl, le_trans (busyLoopExit_ge clock exitMs hexit) hmono,
    by decide, by decide, rfl, rfl, rfl, by decide⟩
  unfold cpuSpike
  rw [hexit]

/-- Witness for C6 at a concrete run: stopwatch readings 1000 then 3200 ms at
the loop checks, final reading 3456 ms. -/
theorem cpuAndMemorySpikeContract_witness :
    busyLoopExit [1000, 3200] = some 3200 ∧ 3200 ≤ 3456 ∧
    ((∃ effs, cpuSpike none [1000, 3200] 3456 =
        some (effs, cpuSpikeResponse none 3456)) ∧
     (cpuSpikeResponse none 3456).status = 200 ∧
     getField (cpuSpikeResponse none 3456).body "durationMs" =
       some (Json.num 3456) ∧
     3000 ≤ 3456 ∧
     (allocLoop 50 []).length = 50 ∧
     (∀ blk ∈ allocLoop 50 [], blk = 10 * 1024 * 1024) ∧
     clearList (allocLoop 50 []) = [] ∧
     (memorySpike none).2.status = 200 ∧
     getField (memorySpike none).2.body "allocatedMb" = some (Json.num 500) ∧
     (allocLoop 50 []).length * 10 = 500) :=
  ⟨rfl, by omega,
   cpuAndMemorySpikeContract none [1000, 3200] 3456 3200 rfl (by omega)⟩

/-- A catalog compared against itself is frame-preserved. -/
theorem framePreserved_refl (id : String) :
    ∀ l : List ActionButton, framePreserved id l l = true := by
  intro l
  induction l with
  | nil => rfl
  | cons b bs ih => simp [framePreserved, ih]

/-- One in-place update of the invoked id's first entry is frame-preserving:
length, identities, static fields unchanged, and entries with other ids
untouched. -/
theorem framePreserved_updateFirst (id : String) (st : BtnStatus)
    (resp : Option String) :
    ∀ l : List ActionButton, framePreserved id l (updateFirst id st resp l) = true := by
  intro l
  induction l with
  | nil => rfl
  | cons b bs ih =>
    by_cases h : b.id = id
    · simp [updateFirst, h, framePreserved, framePreserved_refl]
    · simp [updateFirst, h, framePreserved, ih]

/-- Frame preservation composes across successive updates with the same id. -/
theorem framePreserved_trans (id : String) :
    ∀ l m n : List ActionButton, framePreserved id l m = true →
      framePreserved id m n = true → framePreserved id l n = true := by
  intro l
  induction l with
  | nil =>
    intro m n h1 h2
    cases m with
    | nil =>
      cases n with
      | nil => rfl
      | cons c cs => simp [framePreserved] at h2
    | cons b bs => simp [framePreserved] at h1
  | cons a as ih =>
    intro m n h1 h2
    cases m with
    | nil => simp [framePreserved] at h1
    | cons b bs =>
      cases n with
      | nil => simp [framePreserved] at h2
      | cons c cs =>
        simp only [framePreserved, Bool.and_eq_true, decide_eq_true_eq] at h1 h2 ⊢
        obtain ⟨⟨hid1, hlb1, hd1, ht1, hor1⟩, hr1⟩ := h1
        obtain ⟨⟨hid2, hlb2, hd2, ht2, hor2⟩, hr2⟩ := h2
        refine ⟨⟨hid2.trans hid1, hlb2.trans hlb1, hd2.trans hd1, ht2.trans ht1, ?_⟩,
          ih bs cs hr1 hr2⟩
        rcases hor1 with ha | hba
        · exact Or.inl ha
        · rcases hor2 with hb | hcb
          · rw [hba] at hb
            exact Or.inl hb
          · exact Or.inr (hcb.trans hba)

/-- One `setStatus` call is frame-preserving on both catalogs. -/
theorem setStatus_frame (s : AppState) (id : String) (st : BtnStatus)
    (resp : Option String) :
    framePreserved id s.clientActions (setStatus s id st resp).clientActions = true ∧
    framePreserved id s.serverActions (setStatus s id st resp).serverActions = true := by
  unfold setStatus
  by_cases h1 : s.clientActions.any (fun b => b.id = id) = true
  · simp [h1, framePreserved_updateFirst, framePreserved_refl]
  · by_cases h2 : s.serverActions.any (fun b => b.id = id) = true
    · simp [h1, h2, framePreserved_updateFirst, framePreserved_refl]
    · simp [h1, h2, framePreserved_refl]

/-- C9: every invocation path of the trigger layer — the `setStatus`
primitive, a full `runHttp` round trip (loading then success or error), and
a full `runClient` run — leaves both catalogs frame-preserved with respect to
the invoked id: the catalogs keep their length (no descriptor is created or
deleted), every descriptor keeps its identity and static fields (only
`status` and `response` can change, and only on the invoked descriptor), and
every descriptor whose id is not the invoked one is left entirely
unchanged. -/
theorem invocationFrame (s : AppState) (id : String) (st : BtnStatus)
    (resp : Option String) (outcome : HttpOutcome) (fn : ClientFnResult) :
    (framePreserved id s.clientActions (setStatus s id st resp).clientActions = true ∧
     framePreserved id s.serverActions (setStatus s id st resp).serverActions = true) ∧
    (framePreserved id s.clientActions (runHttp s id outcome).clientActions = true ∧
     framePreserved id s.serverActions (runHttp s id outcome).serverActions = true) ∧
    (framePreserved id s.clientActions (runClient s id fn).1.clientActions = true ∧
     framePreserved id s.serverActions (runClient s id fn).1.serverActions = true) := by
  refine ⟨setStatus_frame s id st resp, ?_, ?_⟩
  · cases outcome with
    | next res =>
      have h1 := setStatus_frame s id BtnStatus.loading none
      have h2 := setStatus_frame (setStatus s id BtnStatus.loading none) id
        BtnStatus.success (some (summaryNext res))
      exact ⟨framePreserved_trans id _ _ _ h1.1 h2.1,
        framePreserved_trans id _ _ _ h1.2 h2.2⟩
    | fail err =>
      have h1 := setStatus_frame s id BtnStatus.loading none
      have h2 := setStatus_frame (setStatus s id BtnStatus.loading none) id
        BtnStatus.error (some (summaryFail err))
      exact ⟨framePreserved_trans id _ _ _ h1.1 h2.1,
        framePreserved_trans id _ _ _ h1.2 h2.2⟩
  · cases fn with
    | normal =>
      have h1 := setStatus_frame s id BtnStatus.loading none
      have h2 := setStatus_frame (setStatus s id BtnStatus.loading none) id
        BtnStatus.error (some "Exception thrown (check Jaeger)")
      exact ⟨framePreserved_trans id _ _ _ h1.1 h2.1,
        framePreserved_trans id _ _ _ h1.2 h2.2⟩
    | thrown m =>
      have h1 := setStatus_frame s id BtnStatus.loading none
      have h2 := setStatus_frame (setStatus s id BtnStatus.loading none) id
        BtnStatus.error (some m)
      exact ⟨framePreserved_trans id _ _ _ h1.1 h2.1,
        framePreserved_trans id _ _ _ h1.2 h2.2⟩

/-- A catalog has a matching entry exactly when `find?` returns one. -/
theorem any_eq_isSome_find? (p : ActionButton → Bool) :
    ∀ l : List ActionButton, l.any p = (l.find? p).isSome := by
  intro l
  induction l with
  | nil => rfl
  | cons b bs ih => cases hb : p b <;> simp [List.any_cons, List.find?_cons, hb, ih]

/-- Updating the first entry with the invoked id commutes with looking that
id up: the lookup returns the updated entry. -/
theorem find?_updateFirst (id : String) (st : BtnStatus) (resp : Option String) :
    ∀ l : List ActionButton,
      (updateFirst id st resp l).find? (fun b => b.id = id) =
        (l.find? (fun b => b.id = id)).map
          (fun b => { b with status := st, response := resp }) := by
  intro l
  induction l with
  | nil => rfl
  | cons b bs ih =>
    by_cases h : b.id = id
    · simp [updateFirst, h, List.find?_cons]
    · simp [updateFirst, h, List.find?_cons, ih]

/-- `setStatus` then `findButton` on the same id: the looked-up descriptor is
the old one with exactly `status` and `response` overwritten (and the lookup
still fails when no descriptor carries the id). -/
theorem findButton_setStatus (s : AppState) (id : String) (st : BtnStatus)
    (resp : Option String) :
    findButton (setStatus s id st resp) id =
      (findButton s id).map (fun b => { b with status := st, response := resp }) := by
  rcases hc : s.clientActions.find? (fun b => b.id = id) with _ | b
  · have h1 : s.clientActions.any (fun b => b.id = id) = false := by
      rw [any_eq_isSome_find?, hc]
      rfl
    rcases hs : s.serverActions.find? (fun b => b.id = id) with _ | c
    · have h2 : s.serverActions.any (fun b => b.id = id) = false := by
        rw [any_eq_isSome_find?, hs]
        rfl
      simp [setStatus, h1, h2, findButton, hc, hs]
    · have h2 : s.serverActions.any (fun b => b.id = id) = true := by
        rw [any_eq_isSome_find?, hs]
        rfl
      simp [setStatus, h1, h2, findButton, hc, hs, find?_updateFirst]
  · have h1 : s.clientActions.any (fun b => b.id = id) = true := by
      rw [any_eq_isSome_find?, hc]
      rfl
    simp [setStatus, h1, findButton, hc, find?_updateFirst]

/-- C10: a client-side fault action dispatched through `runClient` always
leaves its descriptor in status `error`, never `success`: when the simulation
function returns normally the descriptor (whenever the id names one) ends
with status `error` and the summary "Exception thrown (check Jaeger)" and
nothing is rethrown; when it throws synchronously the descriptor ends with
status `error` and the exception's message as summary, and the exception is
rethrown for the `GlobalErrorHandler`. -/
theorem runClientAlwaysEndsInError (s : AppState) (id : String) (m : String) :
    findButton (runClient s id ClientFnResult.normal).1 id =
      (findButton s id).map (fun b =>
        { b with status := BtnStatus.error,
                 response := some "Exception thrown (check Jaeger)" }) ∧
    (runClient s id ClientFnResult.normal).2 = none ∧
    findButton (runClient s id (ClientFnResult.thrown m)).1 id =
      (findButton s id).map (fun b =>
        { b with status := BtnStatus.error, response := some m }) ∧
    (runClient s id (ClientFnResult.thrown m)).2 = some m := by
  refine ⟨?_, rfl, ?_, rfl⟩
  · rw [show (runClient s id ClientFnResult.normal).1 =
        setStatus (setStatus s id BtnStatus.loading none) id BtnStatus.error
          (some "Exception thrown (check Jaeger)") from rfl,
      findButton_setStatus, findButton_setStatus, Option.map_map]
    cases findButton s id <;> rfl
  · rw [show (runClient s id (ClientFnResult.thrown m)).1 =
        setStatus (setStatus s id BtnStatus.loading none) id BtnStatus.error
          (some m) from rfl,
      findButton_setStatus, findButton_setStatus, Option.map_map]
    cases findButton s id <;> rfl

end Pathfinder
